import Mathlib

/-!
Verification of the fingerprint classification and evidence-scoring engine of
cc-proxy-detector (src/scripts/detect.py).

The Python source is shallowly embedded:

* pure string classification helpers (`classify_msg_id`, `classify_thinking_sig`,
  `detect_proxy_platform`) become Lean functions on `String`;
* the extraction part of `probe_once` becomes a pure function taking the
  outcome of the HTTP transport (transport error, status, headers, latency and
  a parsed body) and producing a `Fingerprint`; a response body that is not
  valid JSON is modelled as `none`, a JSON body as a `RespBody` record holding
  exactly the fields the extractor reads (Python's `dict.get` defaults are the
  record defaults);
* `analyze` (first-pass scoring, the two correction rules, the
  negative-evidence audit, clamping and the verdict resolver) becomes a pure
  function from a fingerprint list to a `DetectResult`; evidence strings are
  not modelled (in the source they are display-only and never read back);
* the classification core of `verify_ratelimit_dynamic` becomes a pure
  function of the collected `(remaining, reset)` samples; the numeric content
  of its `detail` string (the reported token drop) is modelled by the
  `reportedDrop` field.

Python `round(x, 2)` is modelled as round-half-to-even on exact rationals
(`pyRound2`); Python integers are `Int`, string lengths are `Nat`.
-/

namespace Detect

/-! ## String helpers (Python `in`, `int(...)`, and regexes) -/

/-- Python `pat in s` on the character lists: `pre` occurs as a contiguous
substring of `l`. -/
def containsChars (pat : List Char) : List Char → Bool
  | [] => pat.isEmpty
  | c :: rest => pat.isPrefixOf (c :: rest) || containsChars pat rest

/-- Python `pat in s` for strings. -/
def strContains (s pat : String) : Bool :=
  containsChars pat.toList s.toList

/-- Python `s.lower()` (ASCII case folding, per character). -/
def strLower (s : String) : String :=
  String.mk (s.data.map Char.toLower)

/-- Python `s.startswith(p)`. -/
def startsWithStr (s p : String) : Bool :=
  p.data.isPrefixOf s.data

/-- Python `s[:n]`. -/
def takeStr (s : String) (n : Nat) : String :=
  String.mk (s.data.take n)

/-- The whitespace characters stripped by Python `str.strip()`. -/
def pySpace (c : Char) : Bool :=
  c = ' ' || c = '\t' || c = '\n' || c = '\r' || c = '\x0b' || c = '\x0c'

/-- Python `s.strip()`. -/
def strTrim (s : String) : String :=
  String.mk (((s.data.dropWhile pySpace).reverse.dropWhile pySpace).reverse)

/-- Split a character list at every occurrence of `c` (Python
`s.split(sep)` with a one-character separator). -/
def splitChars (c : Char) : List Char → List (List Char)
  | [] => [[]]
  | d :: rest =>
    let r := splitChars c rest
    if d = c then [] :: r
    else
      match r with
      | h :: t => (d :: h) :: t
      | [] => [[d]]

/-- Python `s.split(",")`. -/
def splitCommaStr (s : String) : List String :=
  (splitChars ',' s.data).map String.mk

/-- The numeric value of a nonempty all-digit character run, `none` otherwise. -/
def digitsVal : List Char → Option Nat
  | [] => none
  | l =>
    if l.all Char.isDigit then
      some (l.foldl (fun acc c => acc * 10 + (c.toNat - 48)) 0)
    else none

/-- Python `int(v)` on a string: optional surrounding whitespace, optional
sign, decimal digits; `none` models a raised `ValueError` (the source wraps
the call in `try/except`, keeping the previous value). Numeric-literal
underscores are not modelled. -/
def pyInt (s : String) : Option Int :=
  match (strTrim s).toList with
  | '+' :: rest => (digitsVal rest).map Int.ofNat
  | '-' :: rest => (digitsVal rest).map (fun n => -(Int.ofNat n))
  | l => (digitsVal l).map Int.ofNat

/-- `[0-9a-fA-F]` (the source compiles its patterns with `re.IGNORECASE`). -/
def isHexChar (c : Char) : Bool :=
  c.isDigit || ('a' ≤ c && c ≤ 'f') || ('A' ≤ c && c ≤ 'F')

/-- Consume exactly `n` hex characters, returning the rest of the input. -/
def eatHex : Nat → List Char → Option (List Char)
  | 0, l => some l
  | _ + 1, [] => none
  | n + 1, c :: l => if isHexChar c then eatHex n l else none

/-- Consume one literal character. -/
def eatChar (c : Char) : List Char → Option (List Char)
  | [] => none
  | d :: l => if d = c then some l else none

/-- `MSG_ID_UUID_PATTERN`: `^msg_[0-9a-f]{8}-[0-9a-f]{4}-` (case-insensitive),
applied to the part after the `msg_` prefix via `re.match` (an anchored
search, so trailing characters are allowed). -/
def msgUuidShape (afterMsg : List Char) : Bool :=
  match eatHex 8 afterMsg with
  | none => false
  | some r1 =>
    match eatChar '-' r1 with
    | none => false
    | some r2 =>
      match eatHex 4 r2 with
      | none => false
      | some r3 =>
        match eatChar '-' r3 with
        | none => false
        | some _ => true

/-- `^[0-9a-f]{8}-[0-9a-f]{4}-[0-9a-f]{4}-[0-9a-f]{4}-[0-9a-f]{12}$`
(case-insensitive): a full standalone UUID. -/
def uuidShape (l : List Char) : Bool :=
  match eatHex 8 l with
  | none => false
  | some r1 =>
    match eatChar '-' r1 with
    | none => false
    | some r2 =>
      match eatHex 4 r2 with
      | none => false
      | some r3 =>
        match eatChar '-' r3 with
        | none => false
        | some r4 =>
          match eatHex 4 r4 with
          | none => false
          | some r5 =>
            match eatChar '-' r5 with
            | none => false
            | some r6 =>
              match eatHex 4 r6 with
              | none => false
              | some r7 =>
                match eatChar '-' r7 with
                | none => false
                | some r8 =>
                  match eatHex 12 r8 with
                  | none => false
                  | some r9 => r9.isEmpty

/-- `^tool_\d+$`: the literal `tool_` followed by one or more digits. -/
def toolNumShape (s : String) : Bool :=
  match s.toList with
  | 't' :: 'o' :: 'o' :: 'l' :: '_' :: rest => !rest.isEmpty && rest.all Char.isDigit
  | _ => false

/-! ## Classification helpers (`classify_msg_id`, `classify_thinking_sig`,
`detect_proxy_platform`) -/

/-- `classify_msg_id`: message-id `(source, format)` classification.
`req_vrtx_` is checked first, then `msg_`-prefixed ids are split on the UUID
shape, then standalone UUIDs, then everything else. -/
def classify_msg_id (msg_id : String) : String × String :=
  if msg_id = "" then ("unknown", "")
  else if startsWithStr msg_id "req_vrtx_" then ("vertex", "req_vrtx")
  else if startsWithStr msg_id "msg_" then
    if msgUuidShape (msg_id.toList.drop 4) then ("antigravity", "msg_uuid")
    else ("anthropic", "base62")
  else if uuidShape msg_id.toList then ("rewritten", "uuid")
  else ("rewritten", "other")

/-- `classify_thinking_sig`: thinking-signature class. The threshold
`THINKING_SIG_SHORT_THRESHOLD` is 100. -/
def classify_thinking_sig (sig : String) : String :=
  if sig = "" then "none"
  else if sig.length < 100 then "short"
  else if startsWithStr sig "claude#" then "vertex"
  else "normal"

/-- Python-dict insertion used to model `{k.lower(): v for k, v in ...}`:
an existing key keeps its position and takes the new value; a new key is
appended. -/
def dictInsert (d : List (String × String)) (k v : String) : List (String × String) :=
  if d.any (fun kv => kv.1 = k) then
    d.map (fun kv => if kv.1 = k then (k, v) else kv)
  else d ++ [(k, v)]

/-- Build a Python dict (first-insertion key order, last value wins) from an
association list. -/
def pyDict (l : List (String × String)) : List (String × String) :=
  l.foldl (fun d kv => dictInsert d kv.1 kv.2) []

/-- `h.get(k)` returning `none` when the key is absent. -/
def dictFind (d : List (String × String)) (k : String) : Option String :=
  (d.find? (fun kv => kv.1 = k)).map (fun kv => kv.2)

/-- `h.get(k, dflt)`. -/
def dictGet (d : List (String × String)) (k dflt : String) : String :=
  (dictFind d k).getD dflt

/-- `detect_proxy_platform`: reverse-proxy platform name plus supporting
clues, scanned from the (case-folded) response headers. -/
def detect_proxy_platform (headers : List (String × String)) : String × List String :=
  let h := pyDict (headers.map (fun kv => (strLower kv.1, kv.2)))
  let platform := ""
  let clues : List String := []
  let pc1 :=
    if h.any (fun kv => strContains kv.1 "aidistri") then
      ("Aidistri", clues ++ ["X-Aidistri-Request-Id"])
    else (platform, clues)
  let cors := dictGet h "access-control-allow-headers" ""
  let pc2 :=
    if strContains (strLower cors) "accounthub" then
      let p := if pc1.1 = "" then "AccountHub" else pc1.1
      let pool := ((splitCommaStr cors).filter
        (fun x => strContains (strLower x) "accounthub" || strContains (strLower x) "pool")).map
        strTrim
      (p, pc1.2 ++ pool.take 5)
    else pc1
  let pc3 :=
    if h.any (fun kv => strContains kv.1 "openrouter" || strContains kv.2 "openrouter") then
      ("OpenRouter", pc2.2 ++ ["OpenRouter header detected"])
    else pc2
  let pc4 :=
    if h.any (fun kv => strContains kv.1 "one-api" || strContains kv.1 "new-api") then
      ("OneAPI/NewAPI", pc3.2 ++ ["OneAPI header detected"])
    else pc3
  let clues4 :=
    if dictFind h "server" = some "cloudflare" ∧ h.any (fun kv => kv.1 = "cf-ray") then
      pc4.2 ++ ["CF-Ray: " ++ dictGet h "cf-ray" ""]
    else pc4.2
  (pc4.1, clues4)

/-! ## Data model -/

/-- The `Fingerprint` dataclass. Field defaults are the source's defaults.
`raw_headers` / `raw_body` (verbose-only echoes of the response, never read by
the analysis) are not modelled; the source field `thinking_sig_prefix` is
named `thinking_sig_head` here. -/
structure Fingerprint where
  tool_id : String := ""
  tool_id_source : String := "unknown"
  msg_id : String := ""
  msg_id_source : String := "unknown"
  msg_id_format : String := ""
  model : String := ""
  model_requested : String := ""
  model_source : String := "unknown"
  usage_style : String := "unknown"
  thinking_supported : Bool := false
  thinking_signature : String := ""
  thinking_sig_head : String := ""
  thinking_sig_len : Nat := 0
  thinking_sig_class : String := ""
  has_service_tier : Bool := false
  service_tier : String := ""
  has_inference_geo : Bool := false
  inference_geo : String := ""
  has_cache_creation_obj : Bool := false
  has_aws_headers : Bool := false
  has_anthropic_headers : Bool := false
  aws_headers_found : List String := []
  anthropic_headers_found : List String := []
  proxy_platform : String := ""
  proxy_headers : List String := []
  ratelimit_input_limit : Int := 0
  ratelimit_input_remaining : Int := 0
  ratelimit_input_reset : String := ""
  latency_ms : Int := 0
  stop_reason : String := ""
  error : String := ""
  probe_type : String := ""
  deriving Repr, DecidableEq

/-- One block of the response `content` array; only the fields the extractor
reads, with the `dict.get` defaults. `btype` is the JSON key `type`. -/
structure ContentBlock where
  btype : String := ""
  id : String := ""
  signature : String := ""
  deriving Repr, DecidableEq

/-- The `usage` object of the response body: key-presence flags and the
values the extractor reads. -/
structure UsageInfo where
  hasInputTokensCamel : Bool := false
  hasInputTokensSnake : Bool := false
  service_tier : Option String := none
  inference_geo : Option String := none
  cacheCreationIsObj : Bool := false
  deriving Repr, DecidableEq

/-- A response body that parsed as JSON, restricted to the fields the
extractor reads (everything is accessed with `dict.get` and a default). -/
structure RespBody where
  content : List ContentBlock := []
  id : String := ""
  model : String := ""
  usage : UsageInfo := {}
  stop_reason : String := ""
  deriving Repr, DecidableEq

/-- Per-backend integer score map (`scores` dict keys, in insertion order:
anthropic, bedrock, antigravity). -/
structure Scores where
  anthropic : Int
  bedrock : Int
  antigravity : Int
  deriving Repr, DecidableEq

/-- Sum of the three buckets (`sum(scores.values())`). -/
def Scores.total (s : Scores) : Int :=
  s.anthropic + s.bedrock + s.antigravity

/-- The `DetectResult` dataclass restricted to the analysis outputs modelled
here (verdict, confidence, score map, round count, average latency, proxy
platform); evidence lines and the fingerprint echo are not modelled. -/
structure DetectResult where
  verdict : String := "unknown"
  confidence : ℚ := 0
  scores : Scores := ⟨0, 0, 0⟩
  rounds : Nat := 0
  avg_latency_ms : Int := 0
  proxy_platform : String := ""
  deriving Repr, DecidableEq

/-! ## Fingerprint extraction (`probe_once`, lines 266-389) -/

/-- One header line of the scan loop in `probe_once`: keyword flags, the
three `anthropic-ratelimit-input-tokens-*` values, keeping earlier state for
non-matching lines. The AWS and Anthropic keyword sets are
`("x-amzn", "x-amz-", "bedrock")` and
`("anthropic-ratelimit", "x-ratelimit", "retry-after")`. -/
def scanHeader (fp : Fingerprint) (kv : String × String) : Fingerprint :=
  let kl := strLower kv.1
  let awsHit := ["x-amzn", "x-amz-", "bedrock"].any (fun kw => strContains kl kw)
  let antHit := ["anthropic-ratelimit", "x-ratelimit", "retry-after"].any
    (fun kw => strContains kl kw)
  { fp with
    has_aws_headers := fp.has_aws_headers || awsHit
    aws_headers_found :=
      fp.aws_headers_found ++ (if awsHit then [kv.1 ++ ": " ++ kv.2] else [])
    has_anthropic_headers := fp.has_anthropic_headers || antHit
    anthropic_headers_found :=
      fp.anthropic_headers_found ++ (if antHit then [kv.1 ++ ": " ++ kv.2] else [])
    ratelimit_input_limit :=
      if kl = "anthropic-ratelimit-input-tokens-limit" then
        (pyInt kv.2).getD fp.ratelimit_input_limit
      else fp.ratelimit_input_limit
    ratelimit_input_remaining :=
      if kl = "anthropic-ratelimit-input-tokens-remaining" then
        (pyInt kv.2).getD fp.ratelimit_input_remaining
      else fp.ratelimit_input_remaining
    ratelimit_input_reset :=
      if kl = "anthropic-ratelimit-input-tokens-reset" then kv.2
      else fp.ratelimit_input_reset }

/-- Tool-id source classification (lines 336-343): `tooluse_` → bedrock
(provisional), `toolu_` → anthropic, `tool_<digits>` → vertex, anything else
(including an empty id on a present block) → rewritten. -/
def toolIdSource (tid : String) : String :=
  if startsWithStr tid "tooluse_" then "bedrock"
  else if startsWithStr tid "toolu_" then "anthropic"
  else if toolNumShape tid then "vertex"
  else "rewritten"

/-- Body-derived extraction steps 1-6 of `probe_once` (lines 332-387): the
first `tool_use` block, the first `thinking` block, message id, model source,
usage fields, stop reason. In the source these are sequential assignments to
disjoint field groups; here they are rendered as one record update, a field
left alone by a step keeping its incoming value. -/
def applyBody (fp : Fingerprint) (body : RespBody) : Fingerprint :=
  let toolBlock := body.content.find? (fun bl => bl.btype = "tool_use")
  let thinkBlock := body.content.find? (fun bl => bl.btype = "thinking")
  let cm := classify_msg_id body.id
  { fp with
    tool_id := match toolBlock with | some bl => bl.id | none => fp.tool_id
    tool_id_source :=
      match toolBlock with
      | some bl => toolIdSource bl.id
      | none => fp.tool_id_source
    thinking_supported :=
      match thinkBlock with | some _ => true | none => fp.thinking_supported
    thinking_signature :=
      match thinkBlock with | some bl => bl.signature | none => fp.thinking_signature
    thinking_sig_len :=
      match thinkBlock with | some bl => bl.signature.length | none => fp.thinking_sig_len
    thinking_sig_head :=
      match thinkBlock with
      | some bl => if bl.signature = "" then "" else takeStr bl.signature 24
      | none => fp.thinking_sig_head
    thinking_sig_class :=
      match thinkBlock with
      | some bl => classify_thinking_sig bl.signature
      | none => fp.thinking_sig_class
    msg_id := body.id
    msg_id_source := cm.1
    msg_id_format := cm.2
    model := body.model
    model_source :=
      if startsWithStr body.model "kiro-" then "kiro"
      else if startsWithStr body.model "anthropic." then "bedrock"
      else if body.model ≠ "" then "anthropic"
      else fp.model_source
    usage_style :=
      if body.usage.hasInputTokensCamel then "camelCase"
      else if body.usage.hasInputTokensSnake then "snake_case"
      else fp.usage_style
    has_service_tier :=
      match body.usage.service_tier with | some _ => true | none => fp.has_service_tier
    service_tier :=
      match body.usage.service_tier with | some t => t | none => fp.service_tier
    has_inference_geo :=
      match body.usage.inference_geo with | some _ => true | none => fp.has_inference_geo
    inference_geo :=
      match body.usage.inference_geo with | some g => g | none => fp.inference_geo
    has_cache_creation_obj :=
      if body.usage.cacheCreationIsObj then true else fp.has_cache_creation_obj
    stop_reason := body.stop_reason }

/-- The extraction part of `probe_once`, with the HTTP transport's outcome
passed in: `transport` is the `RequestException` message when the POST
failed, `body` is the parsed JSON body (`none` when `resp.json()` raised
`ValueError`). The field-assignment order follows the source: metadata, then
(on transport success) latency, then (on HTTP 200) the header scan, proxy
detection, and the body steps. -/
def probe_once (probe_type model_requested : String) (transport : Option String)
    (status : Nat) (statusText : String) (headers : List (String × String))
    (latency_ms : Int) (body : Option RespBody) : Fingerprint :=
  let fp0 : Fingerprint := { probe_type := probe_type, model_requested := model_requested }
  match transport with
  | some e => { fp0 with error := e }
  | none =>
    let fp1 := { fp0 with latency_ms := latency_ms }
    if status ≠ 200 then
      { fp1 with error := "HTTP " ++ toString status ++ ": " ++ takeStr statusText 200 }
    else
      let fp2 := headers.foldl scanHeader fp1
      let pd := detect_proxy_platform headers
      let fp3 := { fp2 with proxy_platform := pd.1, proxy_headers := pd.2 }
      match body with
      | none => { fp3 with error := "响应体非 JSON" }
      | some b => applyBody fp3 b

/-! ## First-pass scoring (`analyze`, lines 416-497) -/

/-- `valid_fps`: fingerprints whose error field is unset. -/
def validFps (l : List Fingerprint) : List Fingerprint :=
  l.filter (fun fp => fp.error = "")

/-- Weight contributed by one fingerprint to the anthropic bucket: tool id
`toolu_` +5, message id base62 +2, `service_tier` +3, `inference_geo` +2,
nested `cache_creation` +1, Anthropic rate-limit headers +2. -/
def fpScoreA (fp : Fingerprint) : Int :=
  (if fp.tool_id_source = "anthropic" then 5 else 0)
    + (if fp.msg_id_source = "anthropic" then 2 else 0)
    + (if fp.has_service_tier then 3 else 0)
    + (if fp.has_inference_geo then 2 else 0)
    + (if fp.has_cache_creation_obj then 1 else 0)
    + (if fp.has_anthropic_headers then 2 else 0)

/-- Weight contributed by one fingerprint to the bedrock bucket: tool id
`tooluse_` +5 (provisional), model `kiro-*` +8, model `anthropic.*` +3,
camelCase usage +2, AWS headers +3. -/
def fpScoreB (fp : Fingerprint) : Int :=
  (if fp.tool_id_source = "bedrock" then 5 else 0)
    + (if fp.model_source = "kiro" then 8 else 0)
    + (if fp.model_source = "bedrock" then 3 else 0)
    + (if fp.usage_style = "camelCase" then 2 else 0)
    + (if fp.has_aws_headers then 3 else 0)

/-- Weight contributed by one fingerprint to the antigravity bucket: tool id
`tool_N` +5, vertex thinking signature +5 (inside the
`thinking_supported` branch), message id `req_vrtx_` +6. The `short`
signature class, the `msg_<UUID>` message id and rewritten ids produce
evidence lines only and never score. -/
def fpScoreG (fp : Fingerprint) : Int :=
  (if fp.tool_id_source = "vertex" then 5 else 0)
    + (if fp.thinking_supported ∧ fp.thinking_sig_class = "vertex" then 5 else 0)
    + (if fp.msg_id_source = "vertex" then 6 else 0)

/-- First-pass accumulated scores over the valid fingerprints. -/
def firstPass (l : List Fingerprint) : Scores :=
  ⟨((validFps l).map fpScoreA).sum,
   ((validFps l).map fpScoreB).sum,
   ((validFps l).map fpScoreG).sum⟩

/-! ## Ambiguity correction (`analyze`, lines 499-525) -/

/-- `has_kiro_model`: some valid fingerprint has model source `kiro`. -/
def hasKiroModel (l : List Fingerprint) : Bool :=
  (validFps l).any (fun fp => fp.model_source = "kiro")

/-- `tooluse_points`: 5 points per valid fingerprint whose tool id carried
the ambiguous `tooluse_` prefix. -/
def toolusePoints (l : List Fingerprint) : Int :=
  5 * ((validFps l).countP (fun fp => fp.tool_id_source = "bedrock"))

/-- The guard of correction rule 1: no `kiro-` model anywhere, both cloud
buckets positive, and the antigravity bucket at least 4 (the antigravity
bucket never receives `tooluse_` points, so this is its independent score). -/
def transferCond (l : List Fingerprint) (s : Scores) : Prop :=
  hasKiroModel l = false ∧ 0 < s.antigravity ∧ 0 < s.bedrock ∧ 4 ≤ s.antigravity

instance (l : List Fingerprint) (s : Scores) : Decidable (transferCond l s) := by
  unfold transferCond; infer_instance

/-- Correction rule 1 (tool-id reassignment): under `transferCond`, move all
`tooluse_` points from the bedrock bucket to the antigravity bucket. -/
def correct1 (l : List Fingerprint) (s : Scores) : Scores :=
  if transferCond l s then
    ⟨s.anthropic, s.bedrock - toolusePoints l, s.antigravity + toolusePoints l⟩
  else s

/-- Correction rule 2 (message-id reattribution, lines 518-525): when a
`kiro-` model was seen, `msg_<UUID>` ids are annotated as Kiro rewriting.
This appends an evidence line only; the score map is returned unchanged. -/
def correct2 (_l : List Fingerprint) (s : Scores) : Scores := s

/-- Both correction passes in source order. -/
def correctPasses (l : List Fingerprint) (s : Scores) : Scores :=
  correct2 l (correct1 l s)

/-! ## Negative-evidence audit (`analyze`, lines 527-570) -/

/-- Some valid fingerprint carries `inference_geo`. -/
def anyGeo (l : List Fingerprint) : Bool :=
  (validFps l).any (fun fp => fp.has_inference_geo)

/-- Some valid fingerprint carries the nested `cache_creation` object. -/
def anyCache (l : List Fingerprint) : Bool :=
  (validFps l).any (fun fp => fp.has_cache_creation_obj)

/-- `has_thinking_probe`: some valid fingerprint came from a thinking probe. -/
def hasThinkingProbe (l : List Fingerprint) : Bool :=
  (validFps l).any (fun fp => fp.probe_type = "thinking")

/-- `thinking_fps`: the valid fingerprints of thinking probes. -/
def thinkingFps (l : List Fingerprint) : List Fingerprint :=
  (validFps l).filter (fun fp => fp.probe_type = "thinking")

/-- Some thinking-probe fingerprint carries a nonzero-length signature. -/
def anyThinkingSig (l : List Fingerprint) : Bool :=
  (thinkingFps l).any (fun fp => decide (0 < fp.thinking_sig_len))

/-- The audit's applicability guard: after correction, exactly the anthropic
bucket is positive. -/
def auditCond (s : Scores) : Prop :=
  0 < s.anthropic ∧ s.bedrock = 0 ∧ s.antigravity = 0

instance (s : Scores) : Decidable (auditCond s) := by
  unfold auditCond; infer_instance

/-- The negative-evidence audit: sequential docking of the anthropic bucket
(−3 for `inference_geo` absent everywhere, −2 for the nested
`cache_creation` object absent everywhere, −3 for no thinking signature when
a thinking probe ran), returning the docked scores and the `missing_flags`
list. The Anthropic rate-limit headers are only noted as reference
(`[参考]` evidence line) and never subtract. -/
def auditStep (l : List Fingerprint) (s : Scores) : Scores × List String :=
  if auditCond s then
    let sf1 :=
      if anyGeo l then (s, ([] : List String))
      else ({ s with anthropic := s.anthropic - 3 }, ["inference_geo"])
    let sf2 :=
      if anyCache l then sf1
      else ({ sf1.1 with anthropic := sf1.1.anthropic - 2 }, sf1.2 ++ ["cache_creation_obj"])
    let sf3 :=
      if hasThinkingProbe l then
        if anyThinkingSig l then sf2
        else ({ sf2.1 with anthropic := sf2.1.anthropic - 3 }, sf2.2 ++ ["thinking_signature"])
      else sf2
    sf3
  else (s, [])

/-- The final clamp (lines 567-570): every bucket is floored at zero. -/
def clampScores (s : Scores) : Scores :=
  ⟨max s.anthropic 0, max s.bedrock 0, max s.antigravity 0⟩

/-- The final per-backend score map of the pipeline: first pass, correction,
audit, clamp. -/
def finalScores (l : List Fingerprint) : Scores :=
  clampScores (auditStep l (correctPasses l (firstPass l))).1

/-! ## Verdict resolution (`analyze`, lines 572-607) -/

/-- `max(scores, key=scores.get)`: the first key, in dict insertion order
anthropic, bedrock, antigravity, whose score attains the maximum. -/
def winner (s : Scores) : String :=
  if s.bedrock ≤ s.anthropic ∧ s.antigravity ≤ s.anthropic then "anthropic"
  else if s.antigravity ≤ s.bedrock then "bedrock"
  else "antigravity"

/-- The winning score, `scores[winner]`. -/
def maxScore (s : Scores) : Int :=
  max s.anthropic (max s.bedrock s.antigravity)

/-- Round-half-to-even to an integer, on exact rationals. -/
def halfEven (q : ℚ) : ℤ :=
  if q - ⌊q⌋ < 1 / 2 then ⌊q⌋
  else if 1 / 2 < q - ⌊q⌋ then ⌊q⌋ + 1
  else if ⌊q⌋ % 2 = 0 then ⌊q⌋ else ⌊q⌋ + 1

/-- Python `round(x, 2)`, modelled as round-half-to-even on the exact
rational (binary floating-point representation effects are not modelled). -/
def pyRound2 (q : ℚ) : ℚ :=
  (halfEven (q * 100) : ℚ) / 100

/-- `analyze`: the full per-model analysis pass. Early return when every
probe failed; otherwise first-pass scoring, the correction passes, the
negative-evidence audit, clamping, and the verdict resolver. In the source
the zero-total docked case first reinstates verdict `anthropic` at
confidence 0 and sets the `suspicious` flag, which rewrites the verdict to
`suspicious` at the end; this embedding returns the final field values. -/
def analyze (l : List Fingerprint) : DetectResult :=
  let valid := validFps l
  if valid.isEmpty then
    { verdict := "unknown", confidence := 0, scores := ⟨0, 0, 0⟩, rounds := l.length }
  else
    let avgLat := Int.fdiv ((valid.map (fun fp => fp.latency_ms)).sum) (valid.length : Int)
    let platforms := (valid.map (fun fp => fp.proxy_platform)).filter (fun p => p ≠ "")
    let pp := platforms.headD ""
    let s2 := correctPasses l (firstPass l)
    let af := auditStep l s2
    let s3 := clampScores af.1
    let flags := af.2
    let total := s3.total
    if total = 0 then
      if flags ≠ [] then
        { verdict := "suspicious", confidence := 0, scores := s3, rounds := l.length,
          avg_latency_ms := avgLat, proxy_platform := pp }
      else
        { verdict := "unknown", confidence := 0, scores := s3, rounds := l.length,
          avg_latency_ms := avgLat, proxy_platform := pp }
    else
      let w := winner s3
      let v := if w = "anthropic" ∧ 2 ≤ flags.length then "suspicious" else w
      { verdict := v, confidence := pyRound2 ((maxScore s3 : ℚ) / (total : ℚ)),
        scores := s3, rounds := l.length, avg_latency_ms := avgLat, proxy_platform := pp }

/-! ## Rate-limit dynamics verification (`verify_ratelimit_dynamic`,
lines 825-871) -/

/-- The result of `verify_ratelimit_dynamic`: verdict, collected samples and
the numeric token drop interpolated into the `detail` string in the
monotone-decrease case (`reportedDrop = none` in the other branches, whose
details carry no drop figure). -/
structure RlResult where
  verdict : String
  samples : List (Int × String)
  reportedDrop : Option Int
  deriving Repr, DecidableEq

/-- `remainings[i] >= remainings[i+1]` for all adjacent pairs. -/
def nonIncreasing : List Int → Bool
  | [] => true
  | [_] => true
  | a :: b :: rest => decide (b ≤ a) && nonIncreasing (b :: rest)

/-- The classification core of `verify_ratelimit_dynamic`, applied to the
collected `(remaining, reset)` samples: fewer than 2 samples →
`unavailable`; all remaining values identical (`len(set(...)) == 1`) →
`static`; non-increasing with positive total drop → `dynamic`, reporting the
drop; otherwise → `dynamic` with the non-monotonic detail. -/
def classifyRl (samples : List (Int × String)) : RlResult :=
  if samples.length < 2 then ⟨"unavailable", samples, none⟩
  else
    let remainings := samples.map (fun sm => sm.1)
    let first := remainings.headD 0
    let last := remainings.getLastD 0
    let allSame := remainings.all (fun r => decide (r = first))
    let totalDrop := first - last
    if allSame then ⟨"static", samples, none⟩
    else if nonIncreasing remainings && decide (0 < totalDrop) then
      ⟨"dynamic", samples, some totalDrop⟩
    else ⟨"dynamic", samples, none⟩

/-- The sample-collection loop of `verify_ratelimit_dynamic`, with the
fingerprints produced by the `shots` probes passed in: failed probes are
skipped, successful probes contribute their
`(ratelimit_input_remaining, ratelimit_input_reset)` pair. -/
def rlSamples (probes : List Fingerprint) : List (Int × String) :=
  (probes.filter (fun fp => fp.error = "")).map
    (fun fp => (fp.ratelimit_input_remaining, fp.ratelimit_input_reset))

/-- `verify_ratelimit_dynamic` as a function of the probe outcomes. -/
def verify_ratelimit_dynamic (probes : List Fingerprint) : RlResult :=
  classifyRl (rlSamples probes)

/-- The `missing_flags` list produced by the pipeline for a fingerprint
list. -/
def auditFlags (l : List Fingerprint) : List String :=
  (auditStep l (correctPasses l (firstPass l))).2

/-! ## Definitions supporting the claim statements -/

/-- The score of a named backend, `scores[b]`. -/
def scoreOf (s : Scores) (b : String) : Int :=
  if b = "anthropic" then s.anthropic
  else if b = "bedrock" then s.bedrock
  else s.antigravity

/-- The scores in dict insertion order. -/
def scoresList (s : Scores) : List Int :=
  [s.anthropic, s.bedrock, s.antigravity]

/-- `b` holds the strictly highest score. -/
def strictTop (s : Scores) (b : String) : Prop :=
  (b = "anthropic" ∧ s.bedrock < s.anthropic ∧ s.antigravity < s.anthropic) ∨
  (b = "bedrock" ∧ s.anthropic < s.bedrock ∧ s.antigravity < s.bedrock) ∨
  (b = "antigravity" ∧ s.anthropic < s.antigravity ∧ s.bedrock < s.antigravity)

/-- The body-derived feature fields of a fingerprint, bundled. -/
def bodyFields (fp : Fingerprint) :=
  (fp.tool_id, fp.tool_id_source, fp.msg_id, fp.msg_id_source, fp.msg_id_format,
   fp.model, fp.model_source, fp.usage_style, fp.thinking_supported,
   fp.thinking_signature, fp.thinking_sig_head, fp.thinking_sig_len,
   fp.thinking_sig_class, fp.has_service_tier, fp.service_tier,
   fp.has_inference_geo, fp.inference_geo, fp.has_cache_creation_obj,
   fp.stop_reason)

/-- Erase the Anthropic rate-limit header evidence from a fingerprint (the
fields the audit's reference-only check looks at). -/
def clearAnthHeaders (fp : Fingerprint) : Fingerprint :=
  { fp with has_anthropic_headers := false, anthropic_headers_found := [] }

/-! ## Concrete example inputs used by counterexamples and witnesses -/

/-- A probe whose tool id carried the ambiguous `tooluse_` prefix, with
camelCase usage and AWS headers (bedrock 5 + 2 + 3). -/
def fpTooluseCamelAws : Fingerprint :=
  { tool_id_source := "bedrock", usage_style := "camelCase", has_aws_headers := true }

/-- A probe whose tool id carried the ambiguous `tooluse_` prefix, with
camelCase usage (bedrock 5 + 2). -/
def fpTooluseCamel : Fingerprint :=
  { tool_id_source := "bedrock", usage_style := "camelCase" }

/-- A probe with a `tool_N` Vertex tool id (antigravity 5). -/
def fpVertexTool : Fingerprint :=
  { tool_id_source := "vertex" }

/-- A tool probe with an official `toolu_` tool id (anthropic 5). -/
def fpOfficialTool : Fingerprint :=
  { tool_id_source := "anthropic", probe_type := "tool" }

/-- A tool probe with an official tool id and an official base62 message id
(anthropic 5 + 2). -/
def fpOfficialToolMsg : Fingerprint :=
  { tool_id_source := "anthropic", msg_id_source := "anthropic", probe_type := "tool" }

/-- A thinking probe that returned an empty reasoning signature. -/
def fpThinkingEmptySig : Fingerprint :=
  { probe_type := "thinking", thinking_supported := true }

/-- An official-looking probe without a probe type (anthropic 5). -/
def fpOfficialPlain : Fingerprint :=
  { tool_id_source := "anthropic" }

/-- A probe contributing only AWS header evidence (bedrock 3). -/
def fpAwsHeaders : Fingerprint :=
  { has_aws_headers := true }

/-- C2 input: ambiguous tooluse evidence plus an independent Vertex signal. -/
def lC2 : List Fingerprint := [fpTooluseCamelAws, fpVertexTool]

/-- C5/C1 input: ten points of pure official evidence and one thinking probe
with an empty signature. -/
def lC5 : List Fingerprint := [fpOfficialTool, fpOfficialToolMsg, fpThinkingEmptySig]

/-- C1 witness input: five points of official evidence, all cancelled by the
negative-evidence audit. -/
def lC1w : List Fingerprint := [fpOfficialPlain, fpThinkingEmptySig]

/-- C6 input: the transfer leaves a positive bedrock residue. -/
def lC6 : List Fingerprint := [fpTooluseCamel, fpVertexTool]

/-- C6 witness input: no tooluse points at all. -/
def lC6w : List Fingerprint := [fpVertexTool]

/-- C3 witness input: a single thinking probe with an empty signature. -/
def lC3w : List Fingerprint := [fpThinkingEmptySig]

/-- C9 witness input: an exact 5-5 tie between anthropic and antigravity. -/
def lC9w : List Fingerprint := [fpOfficialPlain, fpVertexTool]

/-! ## General helper lemmas -/

theorem any_congr {α : Type} {p q : α → Bool} :
    ∀ {l : List α}, (∀ a ∈ l, p a = q a) → l.any p = l.any q
  | [], _ => rfl
  | a :: t, h => by
    simp only [List.any_cons, h a (List.mem_cons_self a t),
      any_congr (fun b hb => h b (List.mem_cons_of_mem a hb))]

theorem any_perm {α : Type} {p : α → Bool} {l l' : List α} (h : l.Perm l') :
    l.any p = l'.any p := by
  rw [Bool.eq_iff_iff, List.any_eq_true, List.any_eq_true]
  constructor
  · rintro ⟨x, hx, hp⟩; exact ⟨x, h.mem_iff.mp hx, hp⟩
  · rintro ⟨x, hx, hp⟩; exact ⟨x, h.mem_iff.mpr hx, hp⟩

theorem string_len_pos_iff (s : String) : 0 < s.length ↔ s ≠ "" := by
  cases s with
  | mk d =>
    cases d with
    | nil => simp
    | cons c cs =>
      constructor
      · intro _ he
        have : (String.mk (c :: cs)).length = ("" : String).length := by rw [he]
        simp [String.length] at this
      · intro _
        show 0 < cs.length + 1
        omega

/-! ## Permutation invariance of the aggregate functions -/

theorem validFps_perm {l l' : List Fingerprint} (h : l.Perm l') :
    (validFps l).Perm (validFps l') :=
  h.filter _

theorem sum_valid_perm (f : Fingerprint → Int) {l l' : List Fingerprint}
    (h : l.Perm l') : ((validFps l).map f).sum = ((validFps l').map f).sum :=
  ((validFps_perm h).map f).sum_eq

theorem firstPass_perm {l l' : List Fingerprint} (h : l.Perm l') :
    firstPass l = firstPass l' := by
  unfold firstPass
  rw [sum_valid_perm fpScoreA h, sum_valid_perm fpScoreB h, sum_valid_perm fpScoreG h]

theorem hasKiroModel_perm {l l' : List Fingerprint} (h : l.Perm l') :
    hasKiroModel l = hasKiroModel l' :=
  any_perm (validFps_perm h)

theorem toolusePoints_perm {l l' : List Fingerprint} (h : l.Perm l') :
    toolusePoints l = toolusePoints l' := by
  unfold toolusePoints
  rw [(validFps_perm h).countP_eq]

theorem anyGeo_perm {l l' : List Fingerprint} (h : l.Perm l') :
    anyGeo l = anyGeo l' :=
  any_perm (validFps_perm h)

theorem anyCache_perm {l l' : List Fingerprint} (h : l.Perm l') :
    anyCache l = anyCache l' :=
  any_perm (validFps_perm h)

theorem hasThinkingProbe_perm {l l' : List Fingerprint} (h : l.Perm l') :
    hasThinkingProbe l = hasThinkingProbe l' :=
  any_perm (validFps_perm h)

theorem anyThinkingSig_perm {l l' : List Fingerprint} (h : l.Perm l') :
    anyThinkingSig l = anyThinkingSig l' :=
  any_perm ((validFps_perm h).filter _)

theorem correct1_perm {l l' : List Fingerprint} (h : l.Perm l') (s : Scores) :
    correct1 l s = correct1 l' s := by
  unfold correct1 transferCond
  simp only [hasKiroModel_perm h, toolusePoints_perm h]

theorem auditStep_perm {l l' : List Fingerprint} (h : l.Perm l') (s : Scores) :
    auditStep l s = auditStep l' s := by
  unfold auditStep anyThinkingSig thinkingFps
  rw [anyGeo_perm h, anyCache_perm h, hasThinkingProbe_perm h,
    any_perm ((validFps_perm h).filter _)]

theorem finalScores_perm {l l' : List Fingerprint} (h : l.Perm l') :
    finalScores l = finalScores l' := by
  unfold finalScores correctPasses correct2
  rw [firstPass_perm h, correct1_perm h, auditStep_perm h]

/-! ## Projection lemmas for `analyze` -/

theorem firstPass_of_valid_nil {l : List Fingerprint} (h : validFps l = []) :
    firstPass l = ⟨0, 0, 0⟩ := by
  unfold firstPass
  rw [h]
  rfl

theorem finalScores_of_valid_nil {l : List Fingerprint} (h : validFps l = []) :
    finalScores l = ⟨0, 0, 0⟩ := by
  unfold finalScores correctPasses correct2 correct1 auditStep clampScores
  rw [firstPass_of_valid_nil h]
  norm_num [transferCond, auditCond]

theorem auditFlags_of_valid_nil {l : List Fingerprint} (h : validFps l = []) :
    auditFlags l = [] := by
  unfold auditFlags correctPasses correct2 correct1 auditStep
  rw [firstPass_of_valid_nil h]
  norm_num [transferCond, auditCond]

theorem valid_cons_of_ne_nil {l : List Fingerprint} (hne : validFps l ≠ []) :
    ∃ a t, validFps l = a :: t := by
  cases h2 : validFps l with
  | nil => exact absurd h2 hne
  | cons a t => exact ⟨a, t, rfl⟩

theorem analyze_scores (l : List Fingerprint) :
    (analyze l).scores = finalScores l := by
  by_cases hl : validFps l = []
  · have h1 : finalScores l = ⟨0, 0, 0⟩ := finalScores_of_valid_nil hl
    unfold analyze
    rw [hl, h1]
    simp
  · obtain ⟨a, t, hl2⟩ := valid_cons_of_ne_nil hl
    unfold analyze finalScores
    rw [hl2]
    simp only [List.isEmpty_cons, Bool.false_eq_true, if_false]
    split_ifs <;> rfl

theorem analyze_verdict_spec {l : List Fingerprint} (hne : validFps l ≠ []) :
    (analyze l).verdict =
      (if (finalScores l).total = 0 then
        (if auditFlags l ≠ [] then "suspicious" else "unknown")
      else
        (if winner (finalScores l) = "anthropic" ∧ 2 ≤ (auditFlags l).length then
          "suspicious"
        else winner (finalScores l))) := by
  obtain ⟨a, t, hl2⟩ := valid_cons_of_ne_nil hne
  unfold analyze finalScores auditFlags
  rw [hl2]
  simp only [List.isEmpty_cons, Bool.false_eq_true, if_false]
  split_ifs <;> rfl

theorem analyze_confidence_spec {l : List Fingerprint} (hne : validFps l ≠ [])
    (htot : (finalScores l).total ≠ 0) :
    (analyze l).confidence =
      pyRound2 ((maxScore (finalScores l) : ℚ) / ((finalScores l).total : ℚ)) := by
  obtain ⟨a, t, hl2⟩ := valid_cons_of_ne_nil hne
  unfold finalScores at htot ⊢
  unfold analyze
  rw [hl2]
  simp only [List.isEmpty_cons, Bool.false_eq_true, if_false]
  rw [if_neg htot]

theorem valid_ne_nil_of_firstPass_pos {l : List Fingerprint}
    (h : 0 < (firstPass l).anthropic) : validFps l ≠ [] := by
  intro he
  rw [firstPass_of_valid_nil he] at h
  exact absurd h (by decide)

theorem valid_ne_nil_of_total_ne {l : List Fingerprint}
    (h : (finalScores l).total ≠ 0) : validFps l ≠ [] := by
  intro he
  rw [finalScores_of_valid_nil he] at h
  exact absurd rfl h

theorem analyze_confidence_zero {l : List Fingerprint}
    (ht : (finalScores l).total = 0) : (analyze l).confidence = 0 := by
  by_cases hl : validFps l = []
  · unfold analyze
    rw [hl]
    simp
  · obtain ⟨a, t, hl2⟩ := valid_cons_of_ne_nil hl
    unfold finalScores at ht
    unfold analyze
    rw [hl2]
    simp only [List.isEmpty_cons, Bool.false_eq_true, if_false]
    rw [if_pos ht]
    split_ifs <;> rfl

theorem analyze_of_valid_nil {l : List Fingerprint} (h : validFps l = []) :
    (analyze l).verdict = "unknown" ∧ (analyze l).confidence = 0 := by
  unfold analyze
  rw [h]
  simp

/-! ## Winner and tie-break helpers -/

theorem winner_eq_firstMax (s : Scores) :
    winner s = (if s.anthropic = maxScore s then "anthropic"
      else if s.bedrock = maxScore s then "bedrock" else "antigravity") := by
  unfold winner maxScore
  split_ifs <;> first | rfl | (exfalso; omega)

theorem winner_of_strictTop {s : Scores} {b : String} (h : strictTop s b) :
    winner s = b ∧ maxScore s = scoreOf s b := by
  rcases h with ⟨hb, h1, h2⟩ | ⟨hb, h1, h2⟩ | ⟨hb, h1, h2⟩ <;> subst hb <;>
    constructor <;>
    simp only [winner, maxScore, scoreOf] <;>
    split_ifs <;> first | rfl | (exfalso; omega) | omega | simp_all

theorem auditStep_bedrock (l : List Fingerprint) (s : Scores) :
    (auditStep l s).1.bedrock = s.bedrock := by
  unfold auditStep
  split_ifs <;> rfl

theorem auditStep_antigravity (l : List Fingerprint) (s : Scores) :
    (auditStep l s).1.antigravity = s.antigravity := by
  unfold auditStep
  split_ifs <;> rfl

theorem auditFlags_ne_nil_cond {l : List Fingerprint}
    (h : auditFlags l ≠ []) : auditCond (correctPasses l (firstPass l)) := by
  by_contra hc
  apply h
  unfold auditFlags auditStep
  rw [if_neg hc]

theorem finalScores_of_auditCond {l : List Fingerprint}
    (h : auditCond (correctPasses l (firstPass l))) :
    (finalScores l).bedrock = 0 ∧ (finalScores l).antigravity = 0 := by
  unfold finalScores clampScores
  constructor
  · show max (auditStep l (correctPasses l (firstPass l))).1.bedrock 0 = 0
    rw [auditStep_bedrock, h.2.1]
    simp
  · show max (auditStep l (correctPasses l (firstPass l))).1.antigravity 0 = 0
    rw [auditStep_antigravity, h.2.2]
    simp

/-! ## Extraction helpers: fields untouched by the header scan -/

theorem foldl_scanHeader_bodyFields :
    ∀ (hs : List (String × String)) (fp : Fingerprint),
      bodyFields (hs.foldl scanHeader fp) = bodyFields fp
  | [], _ => rfl
  | kv :: t, fp => by
    rw [List.foldl_cons, foldl_scanHeader_bodyFields t (scanHeader fp kv)]
    rfl

theorem scanHeader_remaining (fp : Fingerprint) (kv : String × String)
    (h : strLower kv.1 ≠ "anthropic-ratelimit-input-tokens-remaining") :
    (scanHeader fp kv).ratelimit_input_remaining = fp.ratelimit_input_remaining := by
  show (if strLower kv.1 = "anthropic-ratelimit-input-tokens-remaining"
      then (pyInt kv.2).getD fp.ratelimit_input_remaining
      else fp.ratelimit_input_remaining) = fp.ratelimit_input_remaining
  exact if_neg h

theorem foldl_scanHeader_remaining :
    ∀ (hs : List (String × String)) (fp : Fingerprint),
      (∀ kv ∈ hs, strLower kv.1 ≠ "anthropic-ratelimit-input-tokens-remaining") →
      (hs.foldl scanHeader fp).ratelimit_input_remaining = fp.ratelimit_input_remaining
  | [], _, _ => rfl
  | kv :: t, fp, h => by
    rw [List.foldl_cons,
      foldl_scanHeader_remaining t (scanHeader fp kv)
        (fun x hx => h x (List.mem_cons_of_mem kv hx)),
      scanHeader_remaining fp kv (h kv (List.mem_cons_self kv t))]

theorem applyBody_remaining (fp : Fingerprint) (b : RespBody) :
    (applyBody fp b).ratelimit_input_remaining = fp.ratelimit_input_remaining := by
  rfl

/-! ## Rate-limit list helpers -/

theorem headD_zero_of_all {xs : List Int} (h : ∀ x ∈ xs, x = 0) :
    xs.headD 0 = 0 := by
  cases xs with
  | nil => rfl
  | cons a t => exact h a (List.mem_cons_self a t)

theorem getLastD_mem : ∀ (t : List Int) (a d : Int), (a :: t).getLastD d ∈ a :: t
  | [], a, d => by simp
  | b :: t, a, d => by
    rw [List.getLastD_cons]
    exact List.mem_cons_of_mem a (getLastD_mem t b a)

theorem nonIncreasing_iff : ∀ {xs : List Int},
    nonIncreasing xs = true ↔ List.Chain' (fun a b => b ≤ a) xs
  | [] => by simp [nonIncreasing]
  | [x] => by simp [nonIncreasing]
  | a :: b :: t => by
    show (decide (b ≤ a) && nonIncreasing (b :: t)) = true ↔ _
    rw [Bool.and_eq_true, decide_eq_true_eq, List.chain'_cons, nonIncreasing_iff]

/-! ## Claim theorems -/

/-- C2, counterexample. The claim, read with its own glosses
(cloud-inference-platform = bedrock bucket, cloud-b = antigravity bucket),
asserts that when no `kiro-` model was seen, both cloud buckets are positive
and the bedrock bucket has independent score ≥ 4, the `tooluse_` points move
out of the antigravity bucket into the bedrock bucket: from first-pass
`⟨0, 10, 5⟩` (bedrock's 5 independent non-tooluse points ≥ 4) that would
give `⟨0, 15, 0⟩`. The code does the opposite: the corrector yields
`⟨0, 5, 10⟩`, moving the 5 tooluse points out of bedrock into antigravity. -/
theorem C2_counterexample :
    hasKiroModel lC2 = false ∧ firstPass lC2 = ⟨0, 10, 5⟩ ∧
    toolusePoints lC2 = 5 ∧
    correctPasses lC2 (firstPass lC2) = ⟨0, 5, 10⟩ ∧
    correctPasses lC2 (firstPass lC2) ≠ ⟨0, 15, 0⟩ := by decide

/-- C2, amended: with the two bucket glosses swapped. If no fingerprint
carries the `kiro-` model signal, the bedrock bucket is positive, and the
antigravity bucket — which never receives `tooluse_` points, so its score is
independent of them — is at least 4, then the corrector transfers every
point earned from the `tooluse_` prefix out of the bedrock bucket into the
antigravity bucket, leaving the anthropic bucket and the sum of the two
cloud buckets unchanged. -/
theorem C2_tooluse_transfer (l : List Fingerprint)
    (hk : hasKiroModel l = false)
    (hb : 0 < (firstPass l).bedrock)
    (hg : 4 ≤ (firstPass l).antigravity) :
    correctPasses l (firstPass l) =
      ⟨(firstPass l).anthropic, (firstPass l).bedrock - toolusePoints l,
        (firstPass l).antigravity + toolusePoints l⟩ ∧
    (correctPasses l (firstPass l)).anthropic = (firstPass l).anthropic ∧
    (correctPasses l (firstPass l)).bedrock + (correctPasses l (firstPass l)).antigravity =
      (firstPass l).bedrock + (firstPass l).antigravity := by
  have hc : transferCond l (firstPass l) := ⟨hk, by omega, hb, hg⟩
  unfold correctPasses correct2 correct1
  rw [if_pos hc]
  exact ⟨rfl, rfl, by ring⟩

/-- C2, witness for the amended theorem at the concrete input `lC2`. -/
theorem C2_tooluse_transfer_witness :
    correctPasses lC2 (firstPass lC2) =
      ⟨(firstPass lC2).anthropic, (firstPass lC2).bedrock - toolusePoints lC2,
        (firstPass lC2).antigravity + toolusePoints lC2⟩ :=
  (C2_tooluse_transfer lC2 (by decide) (by decide) (by decide)).1

/-- C6, counterexample. Re-running the correction passes on the score map
they produced transfers the tooluse points a second time: from first pass
`⟨0, 7, 5⟩` the first run gives `⟨0, 2, 10⟩` and a re-run gives
`⟨0, -3, 15⟩`, so the passes are not idempotent. -/
theorem C6_counterexample :
    correctPasses lC6 (correctPasses lC6 (firstPass lC6)) ≠
      correctPasses lC6 (firstPass lC6) := by decide

/-- C6, amended: the two passes are (trivially, as pure functions)
deterministic in the fingerprint set, and re-running them is a no-op exactly
when no further transfer fires: when there are no `tooluse_` points at all,
or when the once-corrected map no longer satisfies the transfer guard (in
particular when the first transfer drained the bedrock bucket to ≤ 0).
Otherwise a re-run moves the tooluse points again (see the counterexample). -/
theorem C6_conditional_idempotence (l : List Fingerprint) (s : Scores)
    (h : toolusePoints l = 0 ∨ ¬ transferCond l (correctPasses l s)) :
    correctPasses l (correctPasses l s) = correctPasses l s := by
  unfold correctPasses correct2 at h ⊢
  rcases h with h0 | hnc
  · have hid : correct1 l s = s := by
      unfold correct1
      split_ifs with h1
      · cases s with
        | mk a b g => simp [h0]
      · rfl
    rw [hid]
    exact hid
  · revert hnc
    generalize correct1 l s = u
    intro hnc
    unfold correct1
    exact if_neg hnc

/-- C6, witness for the amended theorem: with no tooluse points the passes
are idempotent. -/
theorem C6_conditional_idempotence_witness :
    correctPasses lC6w (correctPasses lC6w (firstPass lC6w)) =
      correctPasses lC6w (firstPass lC6w) :=
  C6_conditional_idempotence lC6w (firstPass lC6w) (Or.inl (by decide))

/-- C7: the whole analysis pipeline (first-pass scoring, tool-id
reassignment, negative-evidence audit, clamping) is invariant under
permutation of the fingerprint list: shuffled input produces the same final
per-backend score map. -/
theorem C7_permutation_invariance (l l' : List Fingerprint) (h : l.Perm l') :
    (analyze l).scores = (analyze l').scores := by
  rw [analyze_scores, analyze_scores]
  exact finalScores_perm h

/-- C7, witness at a concrete two-element swap. -/
theorem C7_permutation_invariance_witness :
    (analyze [fpOfficialPlain, fpAwsHeaders]).scores =
      (analyze [fpAwsHeaders, fpOfficialPlain]).scores :=
  C7_permutation_invariance _ _ (List.Perm.swap fpAwsHeaders fpOfficialPlain [])

/-- C8, counterexample. A 200 response carrying an AWS-keyword header and a
non-JSON body yields a fingerprint whose error field is set, but whose
`has_aws_headers` feature field is `true`, not its sentinel default `false`:
the header-derived feature fields are populated before body parsing, so not
every feature field is left at its default. -/
theorem C8_counterexample :
    (probe_once "tool" "m" none 200 "" [("x-amz-id", "abc")] 5 none).error ≠ "" ∧
    (probe_once "tool" "m" none 200 "" [("x-amz-id", "abc")] 5 none).has_aws_headers
      = true ∧
    ({} : Fingerprint).has_aws_headers = false := by decide

/-- C8, amended: for every 200 response whose body is not valid JSON,
extraction returns normally with the error field set (to the JSON-parse
failure message) and every body-derived feature field still at its sentinel
default; header-derived fields are populated from the headers, which are
scanned before the body is parsed. -/
theorem C8_nonjson_body_extraction (probe_type model_requested statusText : String)
    (headers : List (String × String)) (latency_ms : Int) :
    (probe_once probe_type model_requested none 200 statusText headers
        latency_ms none).error = "响应体非 JSON" ∧
    (probe_once probe_type model_requested none 200 statusText headers
        latency_ms none).error ≠ "" ∧
    bodyFields (probe_once probe_type model_requested none 200 statusText headers
        latency_ms none) = bodyFields {} := by
  have h1 : (probe_once probe_type model_requested none 200 statusText headers
      latency_ms none).error = "响应体非 JSON" := rfl
  refine ⟨h1, by rw [h1]; decide, ?_⟩
  have h2 : bodyFields (probe_once probe_type model_requested none 200 statusText
      headers latency_ms none) =
      bodyFields (headers.foldl scanHeader
        { probe_type := probe_type, model_requested := model_requested,
          latency_ms := latency_ms }) := rfl
  rw [h2, foldl_scanHeader_bodyFields]
  rfl

/-- C1: the verdict resolver on the post-audit score map. Total zero with no
docked field gives `unknown` at confidence 0; total zero with a docked field
gives the reinstated-official-then-re-flagged final verdict `suspicious` at
confidence 0; with a nonzero total the backend with the strictly highest
score wins at confidence `round2(winner / total)`, except that an anthropic
winner with two or more docked fields is forced to `suspicious` (keeping
that confidence). -/
theorem C1_verdict_resolver (l : List Fingerprint) :
    ((finalScores l).total = 0 ∧ auditFlags l = [] →
      (analyze l).verdict = "unknown" ∧ (analyze l).confidence = 0) ∧
    ((finalScores l).total = 0 ∧ auditFlags l ≠ [] →
      (analyze l).verdict = "suspicious" ∧ (analyze l).confidence = 0) ∧
    (∀ b : String, (finalScores l).total ≠ 0 → strictTop (finalScores l) b →
      (analyze l).verdict =
        (if b = "anthropic" ∧ 2 ≤ (auditFlags l).length then "suspicious" else b) ∧
      (analyze l).confidence =
        pyRound2 ((scoreOf (finalScores l) b : ℚ) / ((finalScores l).total : ℚ))) := by
  refine ⟨?_, ?_, ?_⟩
  · rintro ⟨ht, hf⟩
    by_cases hl : validFps l = []
    · exact analyze_of_valid_nil hl
    · refine ⟨?_, analyze_confidence_zero ht⟩
      rw [analyze_verdict_spec hl, if_pos ht,
        if_neg (by simp [hf] : ¬ auditFlags l ≠ [])]
  · rintro ⟨ht, hf⟩
    have hl : validFps l ≠ [] := fun he => hf (auditFlags_of_valid_nil he)
    refine ⟨?_, analyze_confidence_zero ht⟩
    rw [analyze_verdict_spec hl, if_pos ht, if_pos hf]
  · intro b ht hstrict
    have hne := valid_ne_nil_of_total_ne ht
    obtain ⟨hw, hmax⟩ := winner_of_strictTop hstrict
    refine ⟨?_, ?_⟩
    · rw [analyze_verdict_spec hne, if_neg ht, hw]
    · rw [analyze_confidence_spec hne ht, hmax]

/-- C1, witness at `lC1w` (5 points of official evidence cancelled by an
8-point dock): total 0 with docked fields resolves to `suspicious` at
confidence 0. -/
theorem C1_verdict_resolver_witness :
    (analyze lC1w).verdict = "suspicious" ∧ (analyze lC1w).confidence = 0 :=
  (C1_verdict_resolver lC1w).2.1 ⟨by decide, by decide⟩

/-- C9: with a positive post-audit total and the maximum attained by two or
more backends, the resolver still returns a single deterministic verdict:
the first backend in the fixed dict order anthropic, bedrock, antigravity
attaining the maximum (and no suspicious re-flagging can fire, because a
docked run leaves only anthropic positive, which excludes a tie). -/
theorem C9_deterministic_tie_break (l : List Fingerprint)
    (htot : 0 < (finalScores l).total)
    (htie : 2 ≤ (scoresList (finalScores l)).countP
      (fun x => x = maxScore (finalScores l))) :
    (analyze l).verdict =
      (if (finalScores l).anthropic = maxScore (finalScores l) then "anthropic"
       else if (finalScores l).bedrock = maxScore (finalScores l) then "bedrock"
       else "antigravity") := by
  have hne := valid_ne_nil_of_total_ne (by omega : (finalScores l).total ≠ 0)
  have hflags : auditFlags l = [] := by
    by_contra hf
    have hcond := auditFlags_ne_nil_cond hf
    obtain ⟨hb0, hg0⟩ := finalScores_of_auditCond hcond
    have ha : 0 < (finalScores l).anthropic := by
      have h2 := htot
      unfold Scores.total at h2
      omega
    have hmax : maxScore (finalScores l) = (finalScores l).anthropic := by
      unfold maxScore
      omega
    unfold scoresList at htie
    rw [hb0, hg0, hmax] at htie
    simp only [List.countP_cons, List.countP_nil, decide_eq_true_eq] at htie
    split_ifs at htie <;> omega
  rw [analyze_verdict_spec hne, if_neg (by omega : ¬ (finalScores l).total = 0),
    hflags]
  have h20 : ¬ (winner (finalScores l) = "anthropic" ∧
      2 ≤ ([] : List String).length) := by
    rintro ⟨_, hlen⟩
    simp at hlen
  rw [if_neg h20, winner_eq_firstMax]

/-- C9, witness at `lC9w`: an exact 5-5 tie between anthropic (official) and
antigravity (cloud-b) resolves to verdict `anthropic`. -/
theorem C9_deterministic_tie_break_witness :
    (analyze lC9w).verdict = "anthropic" :=
  (C9_deterministic_tie_break lC9w (by decide) (by decide)).trans (by decide)

/-- C5, counterexample. On `lC5` every hypothesis of the claim holds
(first-pass scores are all-official `⟨10, 0, 0⟩`, `inference_geo` and the
cache-creation object are absent everywhere, and a thinking probe returned
an empty signature), the verdict is `suspicious` as claimed — but the total
score after the 8-point dock is 4, not ≤ 0: the dock subtracts at most 8
while the positive official evidence can be arbitrarily large. -/
theorem C5_counterexample :
    firstPass lC5 = ⟨12, 0, 0⟩ ∧
    anyGeo lC5 = false ∧ anyCache lC5 = false ∧
    (∃ fp ∈ validFps lC5, fp.probe_type = "thinking" ∧ fp.thinking_signature = "") ∧
    (analyze lC5).verdict = "suspicious" ∧
    (analyze lC5).scores.total = 4 ∧
    ¬ (analyze lC5).scores.total ≤ 0 := by decide

/-- C5, amended: under the claim's hypotheses (positive evidence all
crediting the official backend, `inference_geo` absent from every valid
fingerprint, the nested cache-creation object absent from every valid
fingerprint, and at least one thinking probe with an empty signature), the
audit docks the official bucket by at least 5 points and the resolved
verdict is `suspicious`; the total after docking need not be ≤ 0. -/
theorem C5_all_official_missing_fields (l : List Fingerprint)
    (ha : 0 < (firstPass l).anthropic)
    (hb : (firstPass l).bedrock = 0)
    (hg : (firstPass l).antigravity = 0)
    (hgeo : anyGeo l = false)
    (hcache : anyCache l = false)
    (_hth : ∃ fp ∈ validFps l, fp.probe_type = "thinking" ∧ fp.thinking_signature = "") :
    (auditStep l (correctPasses l (firstPass l))).1.anthropic
        ≤ (firstPass l).anthropic - 5 ∧
    (analyze l).verdict = "suspicious" := by
  have hcp : correctPasses l (firstPass l) = firstPass l := by
    unfold correctPasses correct2 correct1
    rw [if_neg]
    rintro ⟨_, hpos, _, _⟩
    omega
  have hcond : auditCond (firstPass l) := ⟨ha, hb, hg⟩
  have haud : (auditStep l (firstPass l)).1.anthropic ≤ (firstPass l).anthropic - 5
      ∧ 2 ≤ (auditStep l (firstPass l)).2.length := by
    unfold auditStep
    rw [if_pos hcond, hgeo, hcache]
    simp only [Bool.false_eq_true, if_false]
    split_ifs <;> exact ⟨by dsimp only; omega, by simp⟩
  obtain ⟨hdock, hflagslen⟩ := haud
  have hne : validFps l ≠ [] := valid_ne_nil_of_firstPass_pos ha
  have hfl : auditFlags l = (auditStep l (firstPass l)).2 := by
    unfold auditFlags
    rw [hcp]
  have hfs : finalScores l = clampScores (auditStep l (firstPass l)).1 := by
    unfold finalScores
    rw [hcp]
  have hb3 : (finalScores l).bedrock = 0 := by
    rw [hfs]
    show max (auditStep l (firstPass l)).1.bedrock 0 = 0
    rw [auditStep_bedrock, hb]
    simp
  have hg3 : (finalScores l).antigravity = 0 := by
    rw [hfs]
    show max (auditStep l (firstPass l)).1.antigravity 0 = 0
    rw [auditStep_antigravity, hg]
    simp
  have hfne : auditFlags l ≠ [] := by
    rw [hfl]
    intro he
    rw [he] at hflagslen
    simp at hflagslen
  refine ⟨by rw [hcp]; exact hdock, ?_⟩
  rw [analyze_verdict_spec hne]
  by_cases ht : (finalScores l).total = 0
  · rw [if_pos ht, if_pos hfne]
  · rw [if_neg ht]
    have ha3 : 0 < (finalScores l).anthropic := by
      have h2 : (finalScores l).total ≠ 0 := ht
      unfold Scores.total at h2
      have hnn : 0 ≤ (finalScores l).anthropic := by
        rw [hfs]
        exact le_max_right _ _
      omega
    have hcondw : (finalScores l).bedrock ≤ (finalScores l).anthropic ∧
        (finalScores l).antigravity ≤ (finalScores l).anthropic := by omega
    have hwinner : winner (finalScores l) = "anthropic" := by
      unfold winner
      rw [if_pos hcondw]
    rw [hwinner, if_pos ⟨rfl, by rw [hfl]; exact hflagslen⟩]

/-- C5, witness for the amended theorem at the concrete input `lC5`. -/
theorem C5_all_official_missing_fields_witness :
    (analyze lC5).verdict = "suspicious" :=
  (C5_all_official_missing_fields lC5 (by decide) (by decide) (by decide)
    (by decide) (by decide) (by decide)).2

/-- C3: the negative-evidence audit. Its dock applies exactly when, after
correction, the anthropic bucket alone is positive; the sequential docking
then amounts to subtracting 3 when `inference_geo` is absent from every
valid fingerprint, 2 when the nested cache-creation object is absent from
every valid fingerprint, and — only when a thinking probe ran — 3 more when
no thinking probe carries a non-empty signature. The rate-limit-header
check never moves scores: erasing the Anthropic header evidence from every
fingerprint leaves the audit's output unchanged. Afterwards the published
score map is clamped at a floor of zero in every bucket. -/
theorem C3_negative_evidence_audit (l : List Fingerprint) (s : Scores)
    (hwf : ∀ fp ∈ validFps l, fp.thinking_sig_len = fp.thinking_signature.length) :
    (auditStep l s).1 =
      (if auditCond s then
        ⟨s.anthropic -
            ((if anyGeo l then 0 else 3) + (if anyCache l then 0 else 2) +
              (if hasThinkingProbe l = true ∧
                  (thinkingFps l).any (fun fp => fp.thinking_signature ≠ "") = false
                then 3 else 0)),
          s.bedrock, s.antigravity⟩
      else s) ∧
    auditStep (l.map clearAnthHeaders) s = auditStep l s ∧
    (0 ≤ (analyze l).scores.anthropic ∧ 0 ≤ (analyze l).scores.bedrock ∧
      0 ≤ (analyze l).scores.antigravity) := by
  have hsig : anyThinkingSig l =
      (thinkingFps l).any (fun fp => fp.thinking_signature ≠ "") := by
    unfold anyThinkingSig
    apply any_congr
    intro fp hfp
    have hv : fp ∈ validFps l := (List.mem_filter.mp hfp).1
    rw [hwf fp hv, decide_eq_decide]
    exact string_len_pos_iff _
  refine ⟨?_, ?_, ?_⟩
  · unfold auditStep
    by_cases hc : auditCond s
    · rw [if_pos hc, if_pos hc, hsig]
      cases h1 : anyGeo l <;> cases h2 : anyCache l <;>
        cases h3 : hasThinkingProbe l <;>
        cases h4 : (thinkingFps l).any (fun fp => fp.thinking_signature ≠ "") <;>
        simp [Scores.mk.injEq] <;> omega
    · rw [if_neg hc, if_neg hc]
  · have e1 : validFps (l.map clearAnthHeaders) = (validFps l).map clearAnthHeaders := by
      unfold validFps
      rw [List.filter_map]
      rfl
    have e2 : anyGeo (l.map clearAnthHeaders) = anyGeo l := by
      unfold anyGeo
      rw [e1, List.any_map]
      rfl
    have e3 : anyCache (l.map clearAnthHeaders) = anyCache l := by
      unfold anyCache
      rw [e1, List.any_map]
      rfl
    have e4 : hasThinkingProbe (l.map clearAnthHeaders) = hasThinkingProbe l := by
      unfold hasThinkingProbe
      rw [e1, List.any_map]
      rfl
    have e5 : anyThinkingSig (l.map clearAnthHeaders) = anyThinkingSig l := by
      unfold anyThinkingSig thinkingFps
      rw [e1, List.filter_map, List.any_map]
      rfl
    unfold auditStep
    rw [e2, e3, e4, e5]
  · rw [analyze_scores]
    unfold finalScores clampScores
    exact ⟨le_max_right _ _, le_max_right _ _, le_max_right _ _⟩

/-- C3, witness at a single empty-signature thinking probe and an
anthropic-only score map: the audit docks 3 + 2 + 3 = 8 points. -/
theorem C3_negative_evidence_audit_witness :
    (auditStep lC3w ⟨5, 0, 0⟩).1 = ⟨-3, 0, 0⟩ :=
  ((C3_negative_evidence_audit lC3w ⟨5, 0, 0⟩ (by decide)).1).trans (by decide)

/-- C4: the rate-limit dynamics classifier on the collected samples. Fewer
than two samples give `unavailable`; identical remaining values give
`static`; a non-increasing sequence with positive total drop gives
`dynamic` with the drop reported in the detail; a changed but non-monotone
sequence gives `dynamic` without a reported drop. Concretely, remaining
sequence 1000,1000,1000,1000 is `static`; 1000,950,900,850 is `dynamic`
with a drop of 150; and one successful probe among four shots (the samples
coming from successful probes only) is `unavailable`. -/
theorem C4_ratelimit_dynamics (samples : List (Int × String)) :
    (samples.length < 2 → classifyRl samples = ⟨"unavailable", samples, none⟩) ∧
    (2 ≤ samples.length →
      (∀ a ∈ samples.map Prod.fst, ∀ b ∈ samples.map Prod.fst, a = b) →
      classifyRl samples = ⟨"static", samples, none⟩) ∧
    (2 ≤ samples.length →
      List.Chain' (fun a b => b ≤ a) (samples.map Prod.fst) →
      0 < (samples.map Prod.fst).headD 0 - (samples.map Prod.fst).getLastD 0 →
      classifyRl samples =
        ⟨"dynamic", samples,
          some ((samples.map Prod.fst).headD 0 - (samples.map Prod.fst).getLastD 0)⟩) ∧
    (2 ≤ samples.length →
      (¬ ∀ a ∈ samples.map Prod.fst, ∀ b ∈ samples.map Prod.fst, a = b) →
      ¬ List.Chain' (fun a b => b ≤ a) (samples.map Prod.fst) →
      classifyRl samples = ⟨"dynamic", samples, none⟩) ∧
    classifyRl [(1000, ""), (1000, ""), (1000, ""), (1000, "")] =
      ⟨"static", [(1000, ""), (1000, ""), (1000, ""), (1000, "")], none⟩ ∧
    classifyRl [(1000, ""), (950, ""), (900, ""), (850, "")] =
      ⟨"dynamic", [(1000, ""), (950, ""), (900, ""), (850, "")], some 150⟩ ∧
    verify_ratelimit_dynamic
        [{ ratelimit_input_remaining := 1000 }, { error := "HTTP 500" },
          { error := "HTTP 500" }, { error := "HTTP 500" }] =
      ⟨"unavailable", [(1000, "")], none⟩ := by
  refine ⟨?_, ?_, ?_, ?_, by decide, by decide, by decide⟩
  · intro h
    unfold classifyRl
    rw [if_pos h]
  · intro hlen hall
    have hmem : samples.map Prod.fst ≠ [] := by
      intro he
      rw [← List.length_eq_zero, List.length_map] at he
      omega
    have hallb : (samples.map Prod.fst).all
        (fun r => decide (r = (samples.map Prod.fst).headD 0)) = true := by
      rw [List.all_eq_true]
      intro r hr
      exact decide_eq_true
        (hall r hr ((samples.map Prod.fst).headD 0)
          (by
            cases hm : samples.map Prod.fst with
            | nil => exact absurd hm hmem
            | cons a t =>
              rw [List.headD_cons]
              exact List.mem_cons_self a t))
    unfold classifyRl
    rw [if_neg (by omega), if_pos hallb]
  · intro hlen hchain hdrop
    have hmono : nonIncreasing (samples.map Prod.fst) = true :=
      nonIncreasing_iff.mpr hchain
    have hmem : (samples.map Prod.fst).getLastD 0 ∈ samples.map Prod.fst := by
      cases hm : samples.map Prod.fst with
      | nil =>
        rw [← List.length_eq_zero, List.length_map] at hm
        omega
      | cons a t => exact hm ▸ getLastD_mem t a 0
    have hns : ¬ ((samples.map Prod.fst).all
        (fun r => decide (r = (samples.map Prod.fst).headD 0)) = true) := by
      intro hsame
      rw [List.all_eq_true] at hsame
      have := of_decide_eq_true (hsame _ hmem)
      omega
    unfold classifyRl
    rw [if_neg (by omega), if_neg hns,
      if_pos (by rw [Bool.and_eq_true]; exact ⟨hmono, decide_eq_true hdrop⟩)]
  · intro hlen hchanged hnotchain
    have hmem : samples.map Prod.fst ≠ [] := by
      intro he
      rw [← List.length_eq_zero, List.length_map] at he
      omega
    have hns : ¬ ((samples.map Prod.fst).all
        (fun r => decide (r = (samples.map Prod.fst).headD 0)) = true) := by
      intro hsame
      rw [List.all_eq_true] at hsame
      apply hchanged
      intro a ha b hb
      have h1 := of_decide_eq_true (hsame a ha)
      have h2 := of_decide_eq_true (hsame b hb)
      omega
    have hmono : ¬ (nonIncreasing (samples.map Prod.fst) = true) := by
      intro hm
      exact hnotchain (nonIncreasing_iff.mp hm)
    unfold classifyRl
    rw [if_neg (by omega), if_neg hns, if_neg]
    rw [Bool.and_eq_true]
    rintro ⟨hm, _⟩
    exact hmono hm

/-- C4, witness at a single-sample input: the classifier reports
`unavailable`. -/
theorem C4_ratelimit_dynamics_witness :
    classifyRl [(5, "x")] = ⟨"unavailable", [(5, "x")], none⟩ :=
  (C4_ratelimit_dynamics [(5, "x")]).1 (by decide)

/-- C10: a successful probe whose response carries no
`anthropic-ratelimit-input-tokens-remaining` header keeps the sentinel
remaining value 0, and a run of two or more successful probes all at the
sentinel 0 makes the dynamics verifier return `static` (all samples
identical at 0), never `unavailable`. -/
theorem C10_missing_header_static (probe_type model_requested statusText : String)
    (headers : List (String × String)) (latency_ms : Int) (body : Option RespBody)
    (hh : ∀ kv ∈ headers, strLower kv.1 ≠ "anthropic-ratelimit-input-tokens-remaining")
    (probes : List Fingerprint)
    (hcnt : 2 ≤ probes.countP (fun fp => fp.error = ""))
    (hz : ∀ fp ∈ probes, fp.error = "" → fp.ratelimit_input_remaining = 0) :
    (probe_once probe_type model_requested none 200 statusText headers latency_ms
        body).ratelimit_input_remaining = 0 ∧
    (verify_ratelimit_dynamic probes).verdict = "static" ∧
    (verify_ratelimit_dynamic probes).verdict ≠ "unavailable" := by
  have h1 : (probe_once probe_type model_requested none 200 statusText headers
      latency_ms body).ratelimit_input_remaining = 0 := by
    have h2 : (probe_once probe_type model_requested none 200 statusText headers
        latency_ms body).ratelimit_input_remaining =
        (headers.foldl scanHeader
          { probe_type := probe_type, model_requested := model_requested,
            latency_ms := latency_ms } : Fingerprint).ratelimit_input_remaining := by
      cases body with
      | none => rfl
      | some b => exact applyBody_remaining _ b
    rw [h2, foldl_scanHeader_remaining headers _ hh]
  have hlen : (rlSamples probes).length = probes.countP (fun fp => fp.error = "") := by
    unfold rlSamples
    rw [List.length_map, ← List.countP_eq_length_filter]
  have hz2 : ∀ r ∈ (rlSamples probes).map Prod.fst, r = 0 := by
    intro r hr
    unfold rlSamples at hr
    rw [List.map_map] at hr
    obtain ⟨fp, hfp, hre⟩ := List.mem_map.mp hr
    obtain ⟨hmem, herr⟩ := List.mem_filter.mp hfp
    rw [← hre]
    exact hz fp hmem (of_decide_eq_true herr)
  have hstatic : verify_ratelimit_dynamic probes =
      ⟨"static", rlSamples probes, none⟩ := by
    have hallb : ((rlSamples probes).map Prod.fst).all
        (fun r => decide (r = ((rlSamples probes).map Prod.fst).headD 0)) = true := by
      rw [List.all_eq_true]
      intro r hr
      rw [hz2 r hr, headD_zero_of_all hz2]
      exact decide_eq_true rfl
    unfold verify_ratelimit_dynamic classifyRl
    rw [if_neg (by omega), if_pos hallb]
  refine ⟨h1, by rw [hstatic], ?_⟩
  rw [hstatic]
  show ("static" : String) ≠ "unavailable"
  decide

/-- C10, witness: two default successful probes (no rate-limit header seen,
remaining at the sentinel 0), plus a header list without the remaining
header. -/
theorem C10_missing_header_static_witness :
    (probe_once "simple" "m" none 200 "" [("content-type", "application/json")] 3
        none).ratelimit_input_remaining = 0 ∧
    (verify_ratelimit_dynamic [{}, {}]).verdict = "static" ∧
    (verify_ratelimit_dynamic [{}, {}]).verdict ≠ "unavailable" :=
  C10_missing_header_static "simple" "m" "" [("content-type", "application/json")] 3
    none (by decide) [{}, {}] (by decide) (by decide)

end Detect
